import Mathlib

/-!
Shallow embedding of the `test-components-demo` repository: two greeting
components (the tutorial's `HelloWorld.jsx` and `HelloPerson.jsx`), the
mount/query harness consumed from the testing library, and the per-test
isolation hook wired in `setupTests.js`.
-/

namespace TestingDemo

/-- A rendered DOM element: tag name and visible text content. -/
structure Element where
  tag : String
  text : String
deriving DecidableEq, Repr

/-- A rendered tree: the flat list of elements a component produces. -/
abbrev Tree := List Element

/-- Source: README Example 1, `HelloWorld.jsx`:
`export default function HelloWorld() { return <h1>Hello World!</h1> }`. -/
def HelloWorld : Tree := [⟨"h1", "Hello World!"⟩]

/-- Source: README Example 2, `HelloPerson.jsx` as printed in the tutorial:
`export default function HelloPerson({ name }) { return <h1>Hello {name}!</h1> }`
(no comma after `Hello`). -/
def HelloPersonReadme (name : String) : Tree := [⟨"h1", "Hello " ++ name ++ "!"⟩]

/-- Modelled from the spec: the `HelloPerson` component that
`src/components/HelloPerson.test.jsx` imports (named export, prop
`firstName`) is not present in the repository snapshot; spec section 4.1
gives its output as the comma variant `"Hello, {subjectName}!"`, matching
the test's expectation `/Hello, Bob!/`. -/
def HelloPerson (firstName : String) : Tree :=
  [⟨"h1", "Hello, " ++ firstName ++ "!"⟩]

/-- The spec's GreetingRequest: an optional `subjectName`. -/
structure GreetingRequest where
  subjectName : Option String
deriving DecidableEq, Repr

/-- Modelled from the spec: the section 4.1 render contract
`render(request) -> RenderedOutput`, dispatching to the `HelloWorld`
component when `subjectName` is unset and the tested `HelloPerson`
component when it is set. -/
def renderGreeting (r : GreetingRequest) : Tree :=
  match r.subjectName with
  | none => HelloWorld
  | some n => HelloPerson n

/-- The simulated document: a counter of handles and the list of mounted
trees, each tagged with the handle its mount returned. -/
structure Doc where
  nextId : Nat
  mounted : List (Nat × Tree)
deriving DecidableEq, Repr

/-- The pristine simulated document. -/
def Doc.empty : Doc := ⟨0, []⟩

/-- Modelled from the spec: `mount(output_description) -> QueryHandle`
attaches the tree to the simulated document and returns a fresh handle. -/
def mount (t : Tree) (d : Doc) : Nat × Doc :=
  (d.nextId, ⟨d.nextId + 1, d.mounted ++ [(d.nextId, t)]⟩)

/-- Modelled from the spec: `unmount(handle)` detaches the tree mounted
under that handle; it is a total function (the second call succeeds). -/
def unmount (hid : Nat) (d : Doc) : Doc :=
  ⟨d.nextId, d.mounted.filter (fun p => p.1 != hid)⟩

/-- Modelled from the spec: the per-test isolation hook registered by
`setupTests.js` (`afterEach(() => cleanup())`) unmounts every tree
mounted during the test. -/
def cleanup (d : Doc) : Doc := ⟨d.nextId, []⟩

/-- All elements currently attached to the simulated document. -/
def Doc.allNodes (d : Doc) : List Element := (d.mounted.map Prod.snd).flatten

/-- Does `pat` occur as a contiguous run inside the character list? -/
def listHasSubstr (pat : List Char) : List Char → Bool
  | [] => pat.isEmpty
  | c :: rest => pat.isPrefixOf (c :: rest) || listHasSubstr pat rest

/-- Substring test on strings, via their character lists. -/
def strHasSubstr (pat s : String) : Bool := listHasSubstr pat.data s.data

/-- A text query pattern: an exact string, a regex literal without anchors
(substring match), its case-insensitive form, or an alternation (used to
model optional groups such as a `,?` in a regex literal). -/
inductive Pattern where
  | exact (s : String)
  | substr (s : String)
  | substrCI (s : String)
  | anyOf (p q : Pattern)

/-- Whether a pattern matches a node's text. -/
def Pattern.matches : Pattern → String → Bool
  | .exact p, t => p == t
  | .substr p, t => strHasSubstr p t
  | .substrCI p, t => strHasSubstr p.toLower t.toLower
  | .anyOf p q, t => p.matches t || q.matches t

/-- The nodes of the simulated document whose text matches the pattern. -/
def matchingNodes (p : Pattern) (d : Doc) : List Element :=
  d.allNodes.filter (fun e => p.matches e.text)

/-- Outcome of a text query. -/
inductive QueryResult where
  | notFoundError
  | ambiguousMatchError
  | found (e : Element)
deriving DecidableEq, Repr

/-- Modelled from the spec: `findByText(pattern) -> Node` fails with
`NotFoundError` on zero matches, with `AmbiguousMatchError` on more than
one match, and returns the single matching node otherwise. -/
def findByText (p : Pattern) (d : Doc) : QueryResult :=
  match matchingNodes p d with
  | [] => .notFoundError
  | [e] => .found e
  | _ :: _ :: _ => .ambiguousMatchError

/-- Number of starting positions at which `pat` occurs in the list. -/
def countOccs (pat : List Char) : List Char → Nat
  | [] => 0
  | c :: rest => (if pat.isPrefixOf (c :: rest) then 1 else 0) + countOccs pat rest

/-- The spec's declared input domain for the renderer: `subjectName`
unset, or set to a non-empty string. -/
def inDeclaredDomain (r : GreetingRequest) : Prop :=
  r.subjectName = none ∨ ∃ s, r.subjectName = some s ∧ s ≠ ""

/-! ## Helper lemmas -/

theorem filter_idem {α : Type} (f : α → Bool) (l : List α) :
    (l.filter f).filter f = l.filter f := by
  induction l with
  | nil => rfl
  | cons c l' ih =>
    by_cases hc : f c = true
    · simp [List.filter, hc, ih]
    · simp [List.filter, hc, ih]

/-- C1: rendering a GreetingRequest whose `subjectName` is unset (the
HelloWorld component) produces output whose visible text is exactly the
single string "Hello World!". -/
theorem renderGreeting_none_text (r : GreetingRequest)
    (h : r.subjectName = none) :
    (renderGreeting r).map Element.text = ["Hello World!"] := by
  unfold renderGreeting
  rw [h]
  rfl

theorem renderGreeting_none_text_witness :
    (renderGreeting ⟨none⟩).map Element.text = ["Hello World!"] :=
  renderGreeting_none_text ⟨none⟩ rfl

/-- C3 counterexample: the README's example `HelloPerson` component, at
`subjectName = "Alice"`, renders the text "Hello Alice!" (no comma), which
differs from the claimed comma-variant literal "Hello, Alice!": the comma
format is not applied consistently across both example components. -/
theorem comma_claim_counterexample :
    (HelloPersonReadme "Alice").map Element.text = ["Hello Alice!"] ∧
    ("Hello Alice!" : String) ≠ "Hello, Alice!" := by
  constructor
  · rfl
  · decide

/-- C3 amended: for every non-empty `s`, the tested `HelloPerson`
component's sole visible text is exactly "Hello, " ++ s ++ "!", while the
README's example component instead produces "Hello " ++ s ++ "!"; the two
variants do not share one literal format. -/
theorem comma_variant_not_uniform (s : String) (hs : s ≠ "") :
    (HelloPerson s).map Element.text = ["Hello, " ++ s ++ "!"] ∧
    (HelloPersonReadme s).map Element.text = ["Hello " ++ s ++ "!"] := by
  constructor <;> rfl

theorem comma_variant_not_uniform_witness :
    ("Alice" : String) ≠ "" ∧
    ((HelloPerson "Alice").map Element.text = ["Hello, " ++ "Alice" ++ "!"] ∧
     (HelloPersonReadme "Alice").map Element.text = ["Hello " ++ "Alice" ++ "!"]) :=
  ⟨by decide, comma_variant_not_uniform "Alice" (by decide)⟩

/-- C5: after the per-test isolation hook (`cleanup`) runs, every text
query against the previously mounted trees fails with `NotFoundError`. -/
theorem cleanup_isolates (p : Pattern) (d : Doc) :
    findByText p (cleanup d) = QueryResult.notFoundError := rfl

theorem cleanup_isolates_witness :
    findByText (Pattern.exact "Hello World!")
      (cleanup (mount HelloWorld Doc.empty).2) = QueryResult.notFoundError :=
  cleanup_isolates _ _

/-- C6: the render operation is total over its declared domain: for every
in-domain request it returns a well-defined tree, a single `h1` element,
and signals no error. -/
theorem renderGreeting_total (r : GreetingRequest)
    (h : inDeclaredDomain r) :
    ∃ t, renderGreeting r = [⟨"h1", t⟩] := by
  unfold renderGreeting
  cases hr : r.subjectName with
  | none => exact ⟨"Hello World!", rfl⟩
  | some n => exact ⟨"Hello, " ++ n ++ "!", rfl⟩

theorem renderGreeting_total_witness :
    inDeclaredDomain ⟨some "Bob"⟩ ∧
    ∃ t, renderGreeting ⟨some "Bob"⟩ = [⟨"h1", t⟩] :=
  ⟨Or.inr ⟨"Bob", rfl, by decide⟩,
   renderGreeting_total ⟨some "Bob"⟩ (Or.inr ⟨"Bob", rfl, by decide⟩)⟩

/-- C7: `unmount` is idempotent: unmounting the same handle twice leaves
the simulated document exactly as one unmount does (and, being a total
function, the second call does not fail). -/
theorem unmount_idempotent (hid : Nat) (d : Doc) :
    unmount hid (unmount hid d) = unmount hid d := by
  unfold unmount
  simp only [Doc.mk.injEq, true_and]
  exact filter_idem _ _

theorem unmount_idempotent_witness :
    unmount 0 (unmount 0 (mount HelloWorld Doc.empty).2)
      = unmount 0 (mount HelloWorld Doc.empty).2 :=
  unmount_idempotent 0 (mount HelloWorld Doc.empty).2

/-- C9: the renderer is deterministic and its output depends only on the
request's `subjectName` attribute: any two requests agreeing on
`subjectName` render to identical trees. -/
theorem renderGreeting_deterministic (r₁ r₂ : GreetingRequest)
    (h : r₁.subjectName = r₂.subjectName) :
    renderGreeting r₁ = renderGreeting r₂ := by
  unfold renderGreeting
  rw [h]

theorem renderGreeting_deterministic_witness :
    renderGreeting ⟨some "Alice"⟩ = renderGreeting ⟨some "Alice"⟩ :=
  renderGreeting_deterministic ⟨some "Alice"⟩ ⟨some "Alice"⟩ rfl

/-- C10: the props-driven renderer is total on all strings, the empty one
included: rendering with the empty name succeeds and yields the greeting
template with nothing interpolated between the greeting words and the
trailing "!", in both the README variant and the tested variant. -/
theorem helloPerson_empty_total :
    HelloPersonReadme "" = [⟨"h1", "Hello !"⟩] ∧
    HelloPerson "" = [⟨"h1", "Hello, !"⟩] := by
  constructor <;> rfl

/-- C4: for every document and pattern, `findByText` fails with
`NotFoundError` exactly when zero nodes match, fails with
`AmbiguousMatchError` exactly when more than one node matches, and
returns a node exactly when it is the single match. -/
theorem findByText_characterization (p : Pattern) (d : Doc) :
    (findByText p d = QueryResult.notFoundError ↔ (matchingNodes p d).length = 0) ∧
    (findByText p d = QueryResult.ambiguousMatchError ↔ 1 < (matchingNodes p d).length) ∧
    (∀ e, findByText p d = QueryResult.found e ↔ matchingNodes p d = [e]) := by
  unfold findByText
  rcases hm : matchingNodes p d with _ | ⟨a, _ | ⟨b, rest⟩⟩ <;> simp

theorem findByText_characterization_witness :
    findByText (Pattern.exact "x") Doc.empty = QueryResult.notFoundError :=
  ((findByText_characterization (Pattern.exact "x") Doc.empty).1).mpr rfl

/-- The document obtained by mounting the tested `HelloPerson` component
rendered with `firstName = "Alice"` into the pristine document. -/
def aliceDoc : Doc := (mount (HelloPerson "Alice") Doc.empty).2

/-- The regex literal of the spec scenario, an optional-comma
alternation standing for a match of the text against that regex. -/
def optCommaAlice : Pattern :=
  Pattern.anyOf (Pattern.substr "Hello Alice!") (Pattern.substr "Hello, Alice!")

/-- C8: in the tree rendered with `subjectName = "Alice"`, the
optional-comma query for Alice yields exactly one match (the query
succeeds with that single node), while a query for "Bob" in the same
tree fails with `NotFoundError`, whether exact or substring. -/
theorem alice_scenario :
    matchingNodes optCommaAlice aliceDoc = [⟨"h1", "Hello, Alice!"⟩] ∧
    findByText optCommaAlice aliceDoc = QueryResult.found ⟨"h1", "Hello, Alice!"⟩ ∧
    findByText (Pattern.exact "Bob") aliceDoc = QueryResult.notFoundError ∧
    findByText (Pattern.substr "Bob") aliceDoc = QueryResult.notFoundError := by
  refine ⟨by decide, by decide, by decide, by decide⟩

/-! ## Occurrence counting -/

theorem isPrefixOf_iff {α : Type} [BEq α] [LawfulBEq α] {l₁ l₂ : List α} :
    l₁.isPrefixOf l₂ ↔ l₁ <+: l₂ := List.isPrefixOf_iff_prefix

theorem eq_of_prefix_of_length_le {α : Type} {l₁ l₂ : List α}
    (h : l₁ <+: l₂) (hl : l₂.length ≤ l₁.length) : l₁ = l₂ := by
  obtain ⟨t, rfl⟩ := h
  rw [List.length_append] at hl
  have ht : t = [] := List.length_eq_zero.mp (by omega)
  rw [ht, List.append_nil]

theorem countOccs_cons (pat : List Char) (c : Char) (rest : List Char) :
    countOccs pat (c :: rest) =
      (if pat.isPrefixOf (c :: rest) then 1 else 0) + countOccs pat rest := rfl

/-- No occurrence of a pattern can start inside a block that does not
contain the pattern's first character. -/
theorem countOccs_append_skip (p0 : Char) (pt u w : List Char)
    (hu : p0 ∉ u) :
    countOccs (p0 :: pt) (u ++ w) = countOccs (p0 :: pt) w := by
  induction u with
  | nil => rfl
  | cons c u' ih =>
    have hne : p0 ≠ c := fun he => hu (he ▸ List.mem_cons_self c u')
    have hu' : p0 ∉ u' := fun hm => hu (List.mem_cons_of_mem c hm)
    have hpre : (p0 :: pt).isPrefixOf (c :: (u' ++ w)) = false := by
      show ((p0 == c) && pt.isPrefixOf (u' ++ w)) = false
      rw [beq_eq_false_iff_ne.mpr hne, Bool.false_and]
    rw [List.cons_append, countOccs_cons, hpre]
    simpa using ih hu'

/-- A pattern avoiding the character `!` never occurs in `d ++ [!]` when
`d` is shorter than the pattern: any occurrence would have to reach the
final `!`. -/
theorem countOccs_short_bang (pat : List Char) (hb : ('!' : Char) ∉ pat) :
    ∀ d : List Char, d.length < pat.length → countOccs pat (d ++ ['!']) = 0 := by
  intro d
  induction d with
  | nil =>
    intro hlen
    have hpre : pat.isPrefixOf ['!'] = false := by
      cases hpp : pat.isPrefixOf ['!'] with
      | false => rfl
      | true =>
        exfalso
        have hp : pat <+: ['!'] := isPrefixOf_iff.mp hpp
        have heq : pat = ['!'] := by
          refine eq_of_prefix_of_length_le hp ?_
          simp only [List.length_nil] at hlen
          simpa using hlen
        exact hb (heq ▸ List.mem_singleton_self '!')
    rw [List.nil_append, countOccs_cons, hpre]
    rfl
  | cons c d' ih =>
    intro hlen
    rw [List.length_cons] at hlen
    have hlen' : d'.length < pat.length := by omega
    have hpre : pat.isPrefixOf (c :: (d' ++ ['!'])) = false := by
      cases hpp : pat.isPrefixOf (c :: (d' ++ ['!'])) with
      | false => rfl
      | true =>
        exfalso
        have hp : pat <+: c :: (d' ++ ['!']) := isPrefixOf_iff.mp hpp
        have heq : pat = c :: (d' ++ ['!']) := by
          refine eq_of_prefix_of_length_le hp ?_
          simp only [List.length_cons, List.length_append, List.length_nil]
          omega
        refine hb ?_
        rw [heq]
        exact List.mem_cons_of_mem c
          (List.mem_append_right d' (List.mem_singleton_self '!'))
    rw [List.cons_append, countOccs_cons, hpre]
    simpa using ih hlen'

/-- Interpolating a name whose characters avoid the template `"Hello, !"`
into the greeting template yields exactly one occurrence of the name. -/
theorem countOccs_interpolated (n : List Char) (hne : n ≠ [])
    (hd : ∀ c ∈ n, c ∉ ("Hello, !".data : List Char)) :
    countOccs n ("Hello, ".data ++ (n ++ ['!'])) = 1 := by
  obtain ⟨p0, pt, rfl⟩ := List.exists_cons_of_ne_nil hne
  have hdataEq : ("Hello, !".data : List Char) = "Hello, ".data ++ ['!'] := by decide
  have h1 : p0 ∉ ("Hello, ".data : List Char) := by
    intro hm
    refine hd p0 (List.mem_cons_self _ _) ?_
    rw [hdataEq]
    exact List.mem_append_left _ hm
  have hb : ('!' : Char) ∉ (p0 :: pt) := by
    intro hm
    refine hd '!' hm ?_
    rw [hdataEq]
    exact List.mem_append_right _ (List.mem_singleton_self _)
  rw [countOccs_append_skip p0 pt _ _ h1]
  rw [List.cons_append, countOccs_cons]
  have hpre : (p0 :: pt).isPrefixOf (p0 :: (pt ++ ['!'])) = true := by
    refine isPrefixOf_iff.mpr ?_
    rw [← List.cons_append]
    exact List.prefix_append _ _
  have hz : countOccs (p0 :: pt) (pt ++ ['!']) = 0 :=
    countOccs_short_bang (p0 :: pt) hb pt (by simp)
  rw [hpre, hz]
  rfl

/-- C2 counterexample: at the non-empty name `n = "o"`, the rendered text
contains two occurrences of `n`, not exactly one — in the tested comma
variant and in the README variant alike. -/
theorem occurrence_claim_counterexample :
    (HelloPerson "o").map Element.text = ["Hello, o!"] ∧
    countOccs "o".data ("Hello, o!").data = 2 ∧
    (HelloPersonReadme "o").map Element.text = ["Hello o!"] ∧
    countOccs "o".data ("Hello o!").data = 2 := by
  refine ⟨by decide, by decide, by decide, by decide⟩

/-- C2 amended: for every non-empty name `n`, the rendered text is
exactly the greeting template with `n` interpolated once,
`"Hello, " ++ n ++ "!"`; and when `n` shares no character with the
template literal `"Hello, !"`, the text contains exactly one occurrence
of `n` (names overlapping the template, such as `"o"`, can occur more
than once). -/
theorem helloPerson_name_occurrence (n : String) (hne : n ≠ "")
    (hd : ∀ c ∈ n.data, c ∉ ("Hello, !".data : List Char)) :
    (HelloPerson n).map Element.text = ["Hello, " ++ n ++ "!"] ∧
    countOccs n.data ("Hello, " ++ n ++ "!").data = 1 := by
  constructor
  · rfl
  · have hne' : n.data ≠ [] := by
      intro hnil
      exact hne (String.ext (by rw [hnil]))
    have hdata : ("Hello, " ++ n ++ "!").data
        = "Hello, ".data ++ (n.data ++ ['!']) := by
      rw [String.data_append, String.data_append, List.append_assoc]
    rw [hdata]
    exact countOccs_interpolated n.data hne' hd

theorem helloPerson_name_occurrence_witness :
    ("Zara" : String) ≠ "" ∧
    ((HelloPerson "Zara").map Element.text = ["Hello, " ++ "Zara" ++ "!"] ∧
     countOccs "Zara".data ("Hello, " ++ "Zara" ++ "!").data = 1) :=
  ⟨by decide, helloPerson_name_occurrence "Zara" (by decide) (by decide)⟩

end TestingDemo
